import Mathlib

/-!
# ProgressPulse — verification of the year-progress core

Shallow embedding of the pure core of `progress_pulse_bot.py`:

* the Progress Calculator (`calculate_year_progress`),
* the Content Composer's text composition (`create_tweet_text` together with
  the remote-snippet helpers `fetch_json`, `get_remote_quote`,
  `get_remote_joke` and the length enforcement of `post_daily_update`).

Python's `datetime.date` is embedded as a `Date` structure with the proleptic
Gregorian ordinal (`Date.toOrdinal` mirrors CPython's `date.toordinal`, and
`Date.weekday` mirrors `date.weekday`, Monday = 0).  Python integers are
embedded as `Int`; Python `%` on a positive modulus agrees with `Int.emod`.
Remote payloads are embedded as a loose `Json` value type so that the
uncaught exceptions the helpers can raise on decodable wrong-shape payloads
(`dict.get` on a non-dict, `len` on a length-less value) are visible as
`Except PyError` outcomes.
The float expression `round(days_passed / total_days * 100, 1)` is embedded
exactly as a rational rounded to tenths with ties to even
(`roundHalfEven (days_passed * 1000) total_days`); for the denominators that
occur in this program (365 and 366) the rational value is never exactly
halfway between two tenths, so the float computation and the exact rational
rounding agree and the tie-breaking rule is immaterial.
-/

/-- Gregorian leap-year test, as used by `datetime.date` arithmetic. -/
def isLeapYear (y : Nat) : Bool :=
  (y % 4 == 0 && y % 100 != 0) || y % 400 == 0

/-- Number of days in month `m` of year `y` (0 for an invalid month). -/
def daysInMonth (y m : Nat) : Nat :=
  if m = 2 then (if isLeapYear y then 29 else 28)
  else if m = 4 ∨ m = 6 ∨ m = 9 ∨ m = 11 then 30
  else if 1 ≤ m ∧ m ≤ 12 then 31
  else 0

/-- Days in year `y` strictly before month `m` (months `1..m-1`). -/
def daysBeforeMonth (y : Nat) : Nat → Nat
  | 0 => 0
  | m + 1 => daysBeforeMonth y m + daysInMonth y m

/-- Days before January 1 of year `y` in the proleptic Gregorian calendar
(CPython `_days_before_year`). -/
def daysBeforeYear (y : Nat) : Nat :=
  365 * (y - 1) + ((y - 1) / 4 - (y - 1) / 100) + (y - 1) / 400

/-- A calendar date, mirroring `datetime.date`. -/
structure Date where
  year : Nat
  month : Nat
  day : Nat
  deriving DecidableEq, Repr

/-- Validity of a calendar date (the constructor invariant of
`datetime.date`). -/
def Date.Valid (d : Date) : Prop :=
  1 ≤ d.year ∧ 1 ≤ d.month ∧ d.month ≤ 12 ∧ 1 ≤ d.day ∧ d.day ≤ daysInMonth d.year d.month

instance (d : Date) : Decidable d.Valid := by
  unfold Date.Valid; exact inferInstance

/-- Proleptic Gregorian ordinal, mirroring CPython `date.toordinal`
(January 1 of year 1 has ordinal 1). -/
def Date.toOrdinal (d : Date) : Nat :=
  daysBeforeYear d.year + daysBeforeMonth d.year d.month + d.day

/-- Weekday, mirroring CPython `date.weekday`: Monday = 0, ..., Sunday = 6. -/
def Date.weekday (d : Date) : Nat :=
  (d.toOrdinal + 6) % 7

/-- Round `num / den` to the nearest integer, ties to even.  Embeds the
`round(..., 1)` step of the percentage computation once the quotient has been
scaled to tenths. -/
def roundHalfEven (num den : Nat) : Nat :=
  if 2 * (num % den) < den then num / den
  else if den < 2 * (num % den) then num / den + 1
  else if (num / den) % 2 = 0 then num / den else num / den + 1

/-- The dictionary returned by `calculate_year_progress`.
`percentage_tenths` holds `percentage_complete` scaled by 10 (one decimal
place of the Python float, e.g. `53.4` is stored as `534`). -/
structure ProgressData where
  year : Nat
  today : Date
  include_today : Bool
  days_passed : Int
  days_remaining : Int
  total_days : Int
  percentage_tenths : Nat
  weeks_remaining : Int
  months_remaining : Int
  deriving Repr

/-- Embedding of `ProgressPulseBotFixed.calculate_year_progress`, as a pure
function of `today` (Python reads `datetime.date.today()`) and of the
`include_today` configuration flag. -/
def calculate_year_progress (today : Date) (include_today : Bool) : ProgressData :=
  let year_start : Date := ⟨today.year, 1, 1⟩
  let year_end : Date := ⟨today.year, 12, 31⟩
  -- total_days = (year_end - year_start).days + 1
  let total_days : Int := ((year_end.toOrdinal : Int) - (year_start.toOrdinal : Int)) + 1
  -- days_passed = (today - year_start).days + (1 if self.include_today else 0)
  let days_passed : Int :=
    ((today.toOrdinal : Int) - (year_start.toOrdinal : Int)) + (if include_today then 1 else 0)
  -- days_remaining = total_days - days_passed
  let days_remaining : Int := total_days - days_passed
  -- percentage_complete = round((days_passed / total_days) * 100, 1)
  let percentage_tenths : Nat := roundHalfEven (days_passed.toNat * 1000) total_days.toNat
  -- weeks_remaining = days_remaining // 7
  let weeks_remaining : Int := Int.fdiv days_remaining 7
  -- months_remaining = (year_end.month - today.month) + 12*(year_end.year - today.year),
  -- decremented when year_end.day < today.day
  let months_remaining : Int :=
    let mr : Int :=
      ((year_end.month : Int) - (today.month : Int)) +
        12 * ((year_end.year : Int) - (today.year : Int))
    if year_end.day < today.day then mr - 1 else mr
  { year := today.year
    today := today
    include_today := include_today
    days_passed := days_passed
    days_remaining := days_remaining
    total_days := total_days
    percentage_tenths := percentage_tenths
    weeks_remaining := weeks_remaining
    -- 'months_remaining': max(0, months_remaining)
    months_remaining := max 0 months_remaining }

/-! ## Calendar lemmas -/

theorem daysInMonth_le_31 (y m : Nat) : daysInMonth y m ≤ 31 := by
  unfold daysInMonth
  split_ifs <;> omega

theorem daysInMonth_twelve (y : Nat) : daysInMonth y 12 = 31 := by
  unfold daysInMonth
  norm_num

theorem daysBeforeMonth_mono (y : Nat) {a b : Nat} (h : a ≤ b) :
    daysBeforeMonth y a ≤ daysBeforeMonth y b := by
  induction h with
  | refl => exact Nat.le_refl _
  | step _ ih => exact Nat.le_trans ih (Nat.le_add_right _ _)

theorem daysBeforeMonth_one (y : Nat) : daysBeforeMonth y 1 = 0 := by
  show daysBeforeMonth y 0 + daysInMonth y 0 = 0
  unfold daysBeforeMonth daysInMonth
  norm_num

theorem daysBeforeMonth_twelve (y : Nat) :
    daysBeforeMonth y 12 = if isLeapYear y then 335 else 334 := by
  cases h : isLeapYear y <;>
    simp [daysBeforeMonth, daysInMonth, h]

theorem toOrdinal_jan1_le {d : Date} (h : d.Valid) :
    (Date.mk d.year 1 1).toOrdinal ≤ d.toOrdinal := by
  obtain ⟨-, hm1, -, hd1, -⟩ := h
  unfold Date.toOrdinal
  simp only [daysBeforeMonth_one]
  have := daysBeforeMonth_mono d.year (Nat.le_refl d.month)
  have hmono := daysBeforeMonth_mono d.year (Nat.le_of_eq (rfl : d.month = d.month))
  have h0 : daysBeforeMonth d.year 1 ≤ daysBeforeMonth d.year d.month :=
    daysBeforeMonth_mono d.year hm1
  simp only [daysBeforeMonth_one] at h0
  omega

theorem toOrdinal_le_dec31 {d : Date} (h : d.Valid) :
    d.toOrdinal ≤ (Date.mk d.year 12 31).toOrdinal := by
  obtain ⟨-, hm1, hm12, -, hday⟩ := h
  unfold Date.toOrdinal
  dsimp only
  have h1 : daysBeforeMonth d.year d.month + d.day ≤ daysBeforeMonth d.year (d.month + 1) := by
    show daysBeforeMonth d.year d.month + d.day ≤
      daysBeforeMonth d.year d.month + daysInMonth d.year d.month
    omega
  have h2 : daysBeforeMonth d.year (d.month + 1) ≤ daysBeforeMonth d.year 13 :=
    daysBeforeMonth_mono d.year (by omega)
  have h3 : daysBeforeMonth d.year 13 = daysBeforeMonth d.year 12 + 31 := by
    show daysBeforeMonth d.year 12 + daysInMonth d.year 12 = _
    rw [daysInMonth_twelve]
  omega

/-- `total_days` depends only on the year: 366 in a leap year, else 365. -/
theorem total_days_eq (today : Date) (include_today : Bool) :
    (calculate_year_progress today include_today).total_days =
      if isLeapYear today.year then 366 else 365 := by
  unfold calculate_year_progress Date.toOrdinal
  simp only [daysBeforeMonth_one, daysBeforeMonth_twelve]
  cases h : isLeapYear today.year <;> simp [h] <;> omega

/-! ## Definitional access lemmas for the record fields -/

theorem days_passed_eq (today : Date) (it : Bool) :
    (calculate_year_progress today it).days_passed =
      ((today.toOrdinal : Int) - ((Date.mk today.year 1 1).toOrdinal : Int)) +
        (if it then 1 else 0) := rfl

theorem days_remaining_eq (today : Date) (it : Bool) :
    (calculate_year_progress today it).days_remaining =
      (calculate_year_progress today it).total_days -
        (calculate_year_progress today it).days_passed := rfl

theorem total_days_def (today : Date) (it : Bool) :
    (calculate_year_progress today it).total_days =
      (((Date.mk today.year 12 31).toOrdinal : Int) -
        ((Date.mk today.year 1 1).toOrdinal : Int)) + 1 := rfl

set_option maxRecDepth 4000 in
theorem percentage_tenths_def (today : Date) (it : Bool) :
    (calculate_year_progress today it).percentage_tenths =
      roundHalfEven ((calculate_year_progress today it).days_passed.toNat * 1000)
        (calculate_year_progress today it).total_days.toNat := rfl

theorem months_remaining_def (today : Date) (it : Bool) :
    (calculate_year_progress today it).months_remaining =
      max 0 (if (Date.mk today.year 12 31).day < today.day
             then (((Date.mk today.year 12 31).month : Int) - (today.month : Int)) +
                    12 * (((Date.mk today.year 12 31).year : Int) - (today.year : Int)) - 1
             else (((Date.mk today.year 12 31).month : Int) - (today.month : Int)) +
                    12 * (((Date.mk today.year 12 31).year : Int) - (today.year : Int))) := rfl

/-! ## Rounding lemmas -/

theorem roundHalfEven_zero (den : Nat) : roundHalfEven 0 den = 0 := by
  unfold roundHalfEven
  simp only [Nat.zero_div, Nat.zero_mod]
  split_ifs <;> omega

theorem roundHalfEven_self_mul (t : Nat) (ht : 0 < t) : roundHalfEven (t * 1000) t = 1000 := by
  unfold roundHalfEven
  have hq : t * 1000 / t = 1000 := Nat.mul_div_cancel_left 1000 ht
  have hr : t * 1000 % t = 0 := Nat.mul_mod_right t 1000
  simp only [hq, hr]
  split_ifs <;> omega

theorem roundHalfEven_ge_div (num den : Nat) : num / den ≤ roundHalfEven num den := by
  unfold roundHalfEven
  split_ifs <;> omega

theorem roundHalfEven_le_div_succ (num den : Nat) : roundHalfEven num den ≤ num / den + 1 := by
  unfold roundHalfEven
  split_ifs <;> omega

theorem roundHalfEven_mono (den : Nat) {a b : Nat} (h : a ≤ b) :
    roundHalfEven a den ≤ roundHalfEven b den := by
  have hq : a / den ≤ b / den := Nat.div_le_div_right h
  rcases Nat.eq_or_lt_of_le hq with heq | hlt
  · -- same quotient: compare remainders
    have ha := Nat.div_add_mod a den
    have hb := Nat.div_add_mod b den
    rw [heq] at ha
    have hr : a % den ≤ b % den := by
      have key : den * (b / den) + a % den ≤ den * (b / den) + b % den := by
        rw [ha, hb]; exact h
      exact Nat.le_of_add_le_add_left key
    unfold roundHalfEven
    rw [heq]
    split_ifs <;> omega
  · calc roundHalfEven a den ≤ a / den + 1 := roundHalfEven_le_div_succ a den
      _ ≤ b / den := hlt
      _ ≤ roundHalfEven b den := roundHalfEven_ge_div b den

/-! ## Claim theorems about the calculator -/

/-- C1: for every valid calendar date `today` and both values of
`includeToday`, the record produced by `calculate_year_progress` satisfies
`daysPassed + daysRemaining == totalDays`, and `daysPassed`, `daysRemaining`
and `totalDays` are all non-negative integers. -/
theorem progress_record_invariant (today : Date) (h : today.Valid) (include_today : Bool) :
    (calculate_year_progress today include_today).days_passed +
        (calculate_year_progress today include_today).days_remaining =
      (calculate_year_progress today include_today).total_days ∧
    0 ≤ (calculate_year_progress today include_today).days_passed ∧
    0 ≤ (calculate_year_progress today include_today).days_remaining ∧
    0 ≤ (calculate_year_progress today include_today).total_days := by
  have h1 := toOrdinal_jan1_le h
  have h2 := toOrdinal_le_dec31 h
  rw [days_passed_eq, days_remaining_eq, days_passed_eq, total_days_def]
  cases include_today <;> simp <;> omega

theorem progress_record_invariant_witness :
    (Date.Valid ⟨2025, 10, 12⟩) ∧
    ((calculate_year_progress ⟨2025, 10, 12⟩ true).days_passed +
        (calculate_year_progress ⟨2025, 10, 12⟩ true).days_remaining =
      (calculate_year_progress ⟨2025, 10, 12⟩ true).total_days ∧
    0 ≤ (calculate_year_progress ⟨2025, 10, 12⟩ true).days_passed ∧
    0 ≤ (calculate_year_progress ⟨2025, 10, 12⟩ true).days_remaining ∧
    0 ≤ (calculate_year_progress ⟨2025, 10, 12⟩ true).total_days) :=
  ⟨by decide, progress_record_invariant ⟨2025, 10, 12⟩ (by decide) true⟩

/-- C6: for every valid date, `totalDays` is the inclusive date-difference
span from Jan 1 to Dec 31 of the date's year, and equals 366 exactly in a
leap year and 365 otherwise. -/
theorem total_days_leap_rule (today : Date) (_h : today.Valid) (it : Bool) :
    (calculate_year_progress today it).total_days =
      (((Date.mk today.year 12 31).toOrdinal : Int) -
        ((Date.mk today.year 1 1).toOrdinal : Int)) + 1 ∧
    (calculate_year_progress today it).total_days =
      if isLeapYear today.year then 366 else 365 :=
  ⟨total_days_def today it, total_days_eq today it⟩

theorem total_days_leap_rule_witness :
    (Date.Valid ⟨2024, 2, 29⟩) ∧
    ((calculate_year_progress ⟨2024, 2, 29⟩ false).total_days =
      (((Date.mk 2024 12 31).toOrdinal : Int) - ((Date.mk 2024 1 1).toOrdinal : Int)) + 1 ∧
    (calculate_year_progress ⟨2024, 2, 29⟩ false).total_days =
      if isLeapYear 2024 then 366 else 365) :=
  ⟨by decide, total_days_leap_rule ⟨2024, 2, 29⟩ (by decide) false⟩

/-- C5: January 1 with `includeToday = false` yields `daysPassed = 0` and
`percentComplete = 0.0`; December 31 of the same year with
`includeToday = true` yields `daysPassed = totalDays`, `daysRemaining = 0`
and `percentComplete = 100.0` (percentages stored in tenths). -/
theorem jan1_dec31_edge_cases (y : Nat) (_hy : 0 < y) :
    (calculate_year_progress ⟨y, 1, 1⟩ false).days_passed = 0 ∧
    (calculate_year_progress ⟨y, 1, 1⟩ false).percentage_tenths = 0 ∧
    (calculate_year_progress ⟨y, 12, 31⟩ true).days_passed =
      (calculate_year_progress ⟨y, 12, 31⟩ true).total_days ∧
    (calculate_year_progress ⟨y, 12, 31⟩ true).days_remaining = 0 ∧
    (calculate_year_progress ⟨y, 12, 31⟩ true).percentage_tenths = 1000 := by
  have hdp0 : (calculate_year_progress ⟨y, 1, 1⟩ false).days_passed = 0 := by
    rw [days_passed_eq]; simp
  have hdpT : (calculate_year_progress ⟨y, 12, 31⟩ true).days_passed =
      (calculate_year_progress ⟨y, 12, 31⟩ true).total_days := by
    rw [days_passed_eq, total_days_def]; simp
  refine ⟨hdp0, ?_, hdpT, ?_, ?_⟩
  · rw [percentage_tenths_def, hdp0]
    simp [roundHalfEven_zero]
  · rw [days_remaining_eq, hdpT]; ring
  · rw [percentage_tenths_def, hdpT, total_days_eq]
    split_ifs <;> exact roundHalfEven_self_mul _ (by norm_num)

theorem jan1_dec31_edge_cases_witness :
    0 < 2025 ∧
    ((calculate_year_progress ⟨2025, 1, 1⟩ false).days_passed = 0 ∧
    (calculate_year_progress ⟨2025, 1, 1⟩ false).percentage_tenths = 0 ∧
    (calculate_year_progress ⟨2025, 12, 31⟩ true).days_passed =
      (calculate_year_progress ⟨2025, 12, 31⟩ true).total_days ∧
    (calculate_year_progress ⟨2025, 12, 31⟩ true).days_remaining = 0 ∧
    (calculate_year_progress ⟨2025, 12, 31⟩ true).percentage_tenths = 1000) :=
  ⟨by decide, jan1_dec31_edge_cases 2025 (by decide)⟩

/-- C7: for a fixed `includeToday` and two valid dates of the same calendar
year with `d1 ≤ d2` (ordinal order), the rounded percentage for `d1` is at
most the one for `d2`. -/
theorem percent_complete_monotone (include_today : Bool) (d1 d2 : Date)
    (_h1 : d1.Valid) (_h2 : d2.Valid) (hyear : d1.year = d2.year)
    (hle : d1.toOrdinal ≤ d2.toOrdinal) :
    (calculate_year_progress d1 include_today).percentage_tenths ≤
      (calculate_year_progress d2 include_today).percentage_tenths := by
  rw [percentage_tenths_def, percentage_tenths_def]
  have htot : (calculate_year_progress d1 include_today).total_days =
      (calculate_year_progress d2 include_today).total_days := by
    rw [total_days_eq, total_days_eq, hyear]
  rw [htot]
  apply roundHalfEven_mono
  have hdp : (calculate_year_progress d1 include_today).days_passed ≤
      (calculate_year_progress d2 include_today).days_passed := by
    rw [days_passed_eq, days_passed_eq, hyear]
    have hcast : (d1.toOrdinal : Int) ≤ (d2.toOrdinal : Int) := by exact_mod_cast hle
    exact add_le_add_right (sub_le_sub_right hcast _) _
  exact Nat.mul_le_mul_right 1000 (Int.toNat_le_toNat hdp)

theorem percent_complete_monotone_witness :
    ((Date.Valid ⟨2025, 3, 14⟩) ∧ (Date.Valid ⟨2025, 11, 5⟩) ∧
      (Date.mk 2025 3 14).year = (Date.mk 2025 11 5).year ∧
      (Date.mk 2025 3 14).toOrdinal ≤ (Date.mk 2025 11 5).toOrdinal) ∧
    (calculate_year_progress ⟨2025, 3, 14⟩ false).percentage_tenths ≤
      (calculate_year_progress ⟨2025, 11, 5⟩ false).percentage_tenths :=
  ⟨⟨by decide, by decide, by decide, by decide⟩,
    percent_complete_monotone false ⟨2025, 3, 14⟩ ⟨2025, 11, 5⟩
      (by decide) (by decide) (by decide) (by decide)⟩

/-- C8: `monthsRemaining` equals `12*(yearEnd.year - today.year) +
(yearEnd.month - today.month)`, decremented by 1 when
`yearEnd.day < today.day`, then floored at 0, where `yearEnd` is December 31
of today's year; the result is non-negative. -/
theorem months_remaining_formula (today : Date) (_h : today.Valid) (it : Bool) :
    (calculate_year_progress today it).months_remaining =
      max 0 ((12 * (((Date.mk today.year 12 31).year : Int) - (today.year : Int)) +
              (((Date.mk today.year 12 31).month : Int) - (today.month : Int))) -
             (if (Date.mk today.year 12 31).day < today.day then 1 else 0)) ∧
    0 ≤ (calculate_year_progress today it).months_remaining := by
  constructor
  · rw [months_remaining_def]
    dsimp only
    split_ifs <;> omega
  · rw [months_remaining_def]
    exact le_max_left 0 _

theorem months_remaining_formula_witness :
    (Date.Valid ⟨2025, 10, 12⟩) ∧
    ((calculate_year_progress ⟨2025, 10, 12⟩ false).months_remaining =
      max 0 ((12 * (((Date.mk 2025 12 31).year : Int) - ((2025 : Nat) : Int)) +
              (((Date.mk 2025 12 31).month : Int) - ((10 : Nat) : Int))) -
             (if (Date.mk 2025 12 31).day < 12 then 1 else 0)) ∧
    0 ≤ (calculate_year_progress ⟨2025, 10, 12⟩ false).months_remaining) :=
  ⟨by decide, months_remaining_formula ⟨2025, 10, 12⟩ (by decide) false⟩

/-- C10: `yearEnd` being December 31 of today's own year, the decrement
branch `yearEnd.day < today.day` is unreachable and the floor-at-zero clamp
is the identity: `monthsRemaining` is exactly `12 - today.month`, which is
never negative. -/
theorem months_decrement_unreachable (today : Date) (h : today.Valid) (it : Bool) :
    ¬((Date.mk today.year 12 31).day < today.day) ∧
    (calculate_year_progress today it).months_remaining = 12 - (today.month : Int) ∧
    0 ≤ 12 - (today.month : Int) := by
  obtain ⟨-, -, hm12, -, hday⟩ := h
  have h31 := daysInMonth_le_31 today.year today.month
  refine ⟨?_, ?_, ?_⟩
  · dsimp only; omega
  · rw [months_remaining_def]
    dsimp only
    rw [if_neg (by omega)]
    omega
  · omega

theorem months_decrement_unreachable_witness :
    (Date.Valid ⟨2025, 10, 12⟩) ∧
    (¬((Date.mk 2025 12 31).day < (12 : Nat)) ∧
    (calculate_year_progress ⟨2025, 10, 12⟩ false).months_remaining = 12 - ((10 : Nat) : Int) ∧
    0 ≤ 12 - ((10 : Nat) : Int)) :=
  ⟨by decide, months_decrement_unreachable ⟨2025, 10, 12⟩ (by decide) false⟩

/-! ## Content Composer: candidate pools of `create_tweet_text` -/

def hooks : List String := [
  "Monday check-in: {pct}% of {year} done.",
  "Day {days_passed}/{total_days}: {pct}% complete.",
  "Midweek pulse: {pct}% of {year} complete.",
  "Thursday pace: {days_remaining} days left in {year}.",
  "Friday recap: {pct}% done. {days_remaining} days left.",
  "Weekend update: {pct}% complete.",
  "Sunday reset: {days_remaining} days left this year."]

def insights : List String := [
  "My take: consistency beats intensity over a year.",
  "My take: small wins compound faster than big plans.",
  "My take: clarity first, then action.",
  "My take: momentum is built by showing up again.",
  "My take: focus makes average days count.",
  "My take: tiny steps keep big goals alive.",
  "My take: progress follows attention."]

def jokes : List String := [
  "Quick joke: tomorrow is not a project plan.",
  "Quick joke: time blocking is great until time blocks back.",
  "Quick joke: consistency is the only streak I want.",
  "Quick joke: progress looks better in morning light."]

def fallback_quotes : List String := [
  "Quote: small steps add up.",
  "Quote: focus on the next right step.",
  "Quote: consistency makes ordinary days count.",
  "Quote: start now, refine later."]

def prompts : List String := [
  "What is one thing you will finish this week?",
  "What is your next 1% action today?",
  "Name one small win you can lock in today.",
  "What would make today count?",
  "Pick one priority and move it forward.",
  "What can you complete before Friday?",
  "What will you do in the next 30 minutes?"]

def extra_tags : List String := ["#Goals", "#Productivity", "#Focus", "#Consistency"]

/-! ## Composer helpers -/

/-- Python `a % n` for an `int` `a` and a positive container length `n`
(used as a list index).  `Int.emod` agrees with Python `%` on a positive
modulus. -/
def pyMod (a : Int) (n : Nat) : Nat := (a % (n : Int)).toNat

/-- Python `x or fb` for an optional string `x`: `None` and the empty string
are falsy. -/
def pyOrStr (x : Option String) (fb : String) : String :=
  match x with
  | some s => if s.isEmpty then fb else s
  | none => fb

/-- Python truthiness of an optional string (`None` and `""` are falsy). -/
def pyTruthy (x : Option String) : Bool :=
  match x with
  | some s => !s.isEmpty
  | none => false

/-- `str()` of the one-decimal float `percentage_complete`, reconstructed
from its value in tenths (e.g. `534 ↦ "53.4"`). -/
def pctString (tenths : Nat) : String :=
  toString (tenths / 10) ++ "." ++ toString (tenths % 10)

/-- Zero-padded three-digit group for thousands formatting. -/
def pad3 (n : Nat) : String :=
  if n < 10 then "00" ++ toString n
  else if n < 100 then "0" ++ toString n
  else toString n

/-- Python `"{:,}".format(n)` for a non-negative integer: digit groups of
three separated by commas. -/
def commaFormat (n : Nat) : String :=
  if n < 1000 then toString n
  else commaFormat (n / 1000) ++ "," ++ pad3 (n % 1000)
decreasing_by exact Nat.div_lt_self (by omega) (by omega)

/-- Python `"{:,}".format(i)` for an `int`. -/
def commaFormatInt (i : Int) : String :=
  if i < 0 then "-" ++ commaFormat i.natAbs else commaFormat i.toNat

/-- Python `str.format` as used on the hook templates: substitute the five
named placeholders. -/
def formatHook (template pct year days_passed total_days days_remaining : String) : String :=
  ((((template.replace "{pct}" pct).replace "{year}" year).replace
      "{days_passed}" days_passed).replace
      "{total_days}" total_days).replace "{days_remaining}" days_remaining

/-! ## Remote snippet sources (`_fetch_json`, `_get_remote_quote`,
`_get_remote_joke`)

`json.loads` can return any JSON value, and the helpers call `dict.get` and
`len` on it with only partial shape checks, so a payload that decodes but
has the wrong shape raises `AttributeError` or `TypeError`, and nothing in
the composer catches it.  The helpers are therefore embedded over a loose
`Json` value type and return `Except PyError`, with `.error` the
uncaught-exception outcome. -/

/-- The uncaught Python exceptions of the composer paths. -/
inductive PyError where
  | attributeError
  | typeError
  | indexError
  deriving DecidableEq

/-- A decoded JSON value as returned by `json.loads` (numbers modeled as
integers; the payloads of interest carry only flags and strings). -/
inductive Json where
  | null
  | bool (b : Bool)
  | num (n : Int)
  | str (s : String)
  | arr (elems : List Json)
  | obj (fields : List (String × Json))

/-- Python truthiness of a decoded JSON value. -/
def Json.truthy : Json → Bool
  | .null => false
  | .bool b => b
  | .num n => decide (n ≠ 0)
  | .str s => !s.isEmpty
  | .arr xs => !xs.isEmpty
  | .obj fs => !fs.isEmpty

/-- Truthiness of the result of a `dict.get` (an absent key, `None`, is
falsy). -/
def truthyOpt (x : Option Json) : Bool :=
  match x with
  | none => false
  | some j => j.truthy

/-- Python `x.get(k)`: a dictionary lookup returning `None` when the key is
absent, raising `AttributeError` when `x` is not a dict. -/
def dict_get (j : Json) (k : String) : Except PyError (Option Json) :=
  match j with
  | .obj fields => .ok ((fields.find? (fun p => p.1 == k)).map Prod.snd)
  | _ => .error .attributeError

/-- Python `len(x)` on a decoded JSON value: defined for strings, lists and
dicts, `TypeError` otherwise. -/
def Json.pyLen : Json → Except PyError Nat
  | .str s => .ok s.length
  | .arr xs => .ok xs.length
  | .obj fs => .ok fs.length
  | _ => .error .typeError

mutual

/-- Python `repr()` of a decoded JSON value (the single-quote characters are
written with the `\x27` escape). -/
def Json.pyRepr : Json → String
  | .null => "None"
  | .bool true => "True"
  | .bool false => "False"
  | .num n => toString n
  | .str s => "\x27" ++ s ++ "\x27"
  | .arr xs => "[" ++ String.intercalate ", " (pyReprList xs) ++ "]"
  | .obj fs => "\x7b" ++ String.intercalate ", " (pyReprFields fs) ++ "\x7d"

/-- `repr()` of the elements of a list. -/
def pyReprList : List Json → List String
  | [] => []
  | x :: xs => Json.pyRepr x :: pyReprList xs

/-- `repr()` of the entries of a dict. -/
def pyReprFields : List (String × Json) → List String
  | [] => []
  | (k, v) :: fs => ("\x27" ++ k ++ "\x27: " ++ Json.pyRepr v) :: pyReprFields fs

end

/-- Python `str()` of a decoded JSON value, as interpolated by an f-string:
the string itself for strings, `repr` otherwise. -/
def Json.pyStr : Json → String
  | .str s => s
  | j => j.pyRepr

/-- Embedding of `_fetch_json`: the remote-content opt-out returns `None`
before any request; `response` stands for the outcome of the guarded HTTP
request, where `none` covers every failure the `except` clause swallows
(network error, timeout, non-200 status, JSON that fails to decode).  A
payload that decodes is handed on whatever its shape. -/
def fetch_json {α : Type} (use_remote_content : Bool) (response : Option α) : Option α :=
  if use_remote_content then response else none

/-- Embedding of `_get_remote_quote` over decoded JSON: the truthiness and
`isinstance(data, list)` checks, the first-element and `q`/`a` lookups
(`item.get` raises `AttributeError` on a truthy non-dict element), quote
assembly via f-string interpolation, and the maximum-length acceptance
threshold. -/
def get_remote_quote (use_remote_content : Bool) (response : Option Json)
    (quote_max_length : Nat) : Except PyError (Option String) :=
  match fetch_json use_remote_content response with
  | none => .ok none
  | some data =>
    -- if not data or not isinstance(data, list): return None
    if data.truthy = false then .ok none
    else
      match data with
      | .arr items =>
        -- item = data[0] if data else None (data is truthy, hence non-empty)
        match items with
        | [] => .ok none
        | item :: _ =>
          -- if not item: return None
          if item.truthy = false then .ok none
          else
            match dict_get item "q" with
            | .error e => .error e
            | .ok contentOpt =>
              match dict_get item "a" with
              | .error e => .error e
              | .ok authorOpt =>
                -- if not content: return None
                if truthyOpt contentOpt = false then .ok none
                else
                  let quote := "\"" ++ (contentOpt.getD Json.null).pyStr ++ "\""
                  let quote :=
                    if truthyOpt authorOpt = true
                    then quote ++ " - " ++ (authorOpt.getD Json.null).pyStr
                    else quote
                  if quote_max_length < quote.length then .ok none else .ok (some quote)
      | _ => .ok none

/-- Embedding of `_get_remote_joke` over decoded JSON: the truthiness check,
the `error`/`joke` lookups (`data.get` raises `AttributeError` on a truthy
non-dict payload), and the maximum-length acceptance threshold (`len(joke)`
raises `TypeError` on a truthy value without a length).  The accepted joke
is returned as the JSON value Python would return. -/
def get_remote_joke (use_remote_content : Bool) (response : Option Json)
    (joke_max_length : Nat) : Except PyError (Option Json) :=
  match fetch_json use_remote_content response with
  | none => .ok none
  | some data =>
    -- if not data or data.get("error"): return None  (short-circuit)
    if data.truthy = false then .ok none
    else
      match dict_get data "error" with
      | .error e => .error e
      | .ok err =>
        if truthyOpt err = true then .ok none
        else
          match dict_get data "joke" with
          | .error e => .error e
          | .ok jokeOpt =>
            -- if not joke: return None
            if truthyOpt jokeOpt = false then .ok none
            else
              match jokeOpt with
              | none => .ok none
              | some joke =>
                match joke.pyLen with
                | .error e => .error e
                | .ok l => if joke_max_length < l then .ok none else .ok (some joke)

/-! ## Aside selection and text composition -/

/-- `show_joke = data['days_passed'] > 0 and data['days_passed'] % 7 == 0` -/
def show_joke (days_passed : Int) : Bool :=
  decide (0 < days_passed) && decide (days_passed % 7 = 0)

/-- `show_quote = not show_joke and data['days_passed'] % 3 == 0` -/
def show_quote (days_passed : Int) : Bool :=
  !show_joke days_passed && decide (days_passed % 3 = 0)

/-- The `extra_line` computation of `create_tweet_text`: the outer `Option`
is the may-raise layer (list indexing), the inner `Option` is the aside
itself (`none` when no aside is called for).  `remote_joke` and
`remote_quote` are the results of `_get_remote_joke` / `_get_remote_quote`;
Python's `or` falls through to the local pool entry. -/
def select_aside (days_passed : Int) (remote_joke remote_quote : Option String) :
    Option (Option String) :=
  if show_joke days_passed then
    (jokes[pyMod days_passed jokes.length]?).map (fun fb => some (pyOrStr remote_joke fb))
  else if show_quote days_passed then
    (fallback_quotes[pyMod days_passed fallback_quotes.length]?).map
      (fun fb => some (pyOrStr remote_quote fb))
  else some none

/-- Embedding of `create_tweet_text`.  Python list indexing raises
`IndexError` when out of bounds; that possibility is the outer `Option`
(every `←` step).  The final branch is the drop-the-aside degradation. -/
def create_tweet_text (data : ProgressData) (remote_joke remote_quote : Option String) :
    Option String := do
  let weekday := data.today.weekday
  let pct := pctString data.percentage_tenths
  let hook_template ← hooks[weekday]?
  let hook := formatHook hook_template pct (toString data.year) (toString data.days_passed)
    (toString data.total_days) (toString data.days_remaining)
  let insight ← insights[pyMod data.days_passed insights.length]?
  let prompt ← prompts[pyMod data.days_remaining prompts.length]?
  let extra_line ← select_aside data.days_passed remote_joke remote_quote
  let extra_tag ← extra_tags[pyMod data.days_passed extra_tags.length]?
  let hashtags := "#YearProgress #" ++ toString data.year ++ " " ++ extra_tag
  let summary := commaFormatInt data.days_remaining ++ " days left. " ++
    toString data.weeks_remaining ++ " weeks left."
  let lines := [hook, summary, insight] ++
    (if pyTruthy extra_line then [extra_line.getD ""] else []) ++ [prompt, hashtags]
  let tweet_text := String.intercalate "\n" lines
  if pyTruthy extra_line ∧ 280 < tweet_text.length then
    pure (String.intercalate "\n" [hook, summary, insight, prompt, hashtags])
  else
    pure tweet_text

/-- The length enforcement of `post_daily_update` before the text is handed
to the publisher: hard-truncate to 277 characters and append `"..."` when
the composed text exceeds 280. -/
def enforce_tweet_length (tweet_text : String) : String :=
  if 280 < tweet_text.length then String.take tweet_text 277 ++ "..." else tweet_text

/-- The full composition pipeline of `create_tweet_text` including the
inline remote calls: when the selection rule calls for an aside the matching
remote helper runs first, and an exception there (or from list indexing)
propagates to the caller.  A joke value that is truthy but not a string
survives `_get_remote_joke` and later makes `"\n".join(lines)` raise
`TypeError`; that raise is modeled at the point the value is known. -/
def create_tweet_text_full (data : ProgressData) (use_remote_content : Bool)
    (joke_response quote_response : Option Json)
    (joke_max_length quote_max_length : Nat) : Except PyError String :=
  let remote : Except PyError (Option String × Option String) :=
    if show_joke data.days_passed then
      match get_remote_joke use_remote_content joke_response joke_max_length with
      | .error e => .error e
      | .ok none => .ok (none, none)
      | .ok (some (Json.str s)) => .ok (some s, none)
      | .ok (some _) => .error PyError.typeError
    else if show_quote data.days_passed then
      match get_remote_quote use_remote_content quote_response quote_max_length with
      | .error e => .error e
      | .ok rq => .ok (none, rq)
    else .ok (none, none)
  match remote with
  | .error e => .error e
  | .ok (remote_joke, remote_quote) =>
    match create_tweet_text data remote_joke remote_quote with
    | some t => .ok t
    | none => .error PyError.indexError

/-! ## Composer safety lemmas -/

theorem pyMod_lt (a : Int) {n : Nat} (hn : 0 < n) : pyMod a n < n := by
  unfold pyMod
  have h0 : (0 : Int) < (n : Int) := by exact_mod_cast hn
  have h1 : 0 ≤ a % (n : Int) := Int.emod_nonneg a (by omega)
  have h2 : a % (n : Int) < (n : Int) := Int.emod_lt_of_pos a h0
  omega

theorem weekday_lt_seven (d : Date) : d.weekday < 7 :=
  Nat.mod_lt _ (by norm_num)

theorem select_aside_total (days_passed : Int) (remote_joke remote_quote : Option String) :
    ∃ e, select_aside days_passed remote_joke remote_quote = some e := by
  unfold select_aside
  split_ifs
  · rw [List.getElem?_eq_getElem (pyMod_lt days_passed (by decide))]
    exact ⟨_, rfl⟩
  · rw [List.getElem?_eq_getElem (pyMod_lt days_passed (by decide))]
    exact ⟨_, rfl⟩
  · exact ⟨none, rfl⟩

theorem create_tweet_text_total (data : ProgressData) (remote_joke remote_quote : Option String) :
    ∃ t, create_tweet_text data remote_joke remote_quote = some t := by
  obtain ⟨e, he⟩ := select_aside_total data.days_passed remote_joke remote_quote
  unfold create_tweet_text
  dsimp only
  rw [List.getElem?_eq_getElem (show data.today.weekday < hooks.length from weekday_lt_seven _),
    List.getElem?_eq_getElem (pyMod_lt data.days_passed (n := insights.length) (by decide)),
    List.getElem?_eq_getElem (pyMod_lt data.days_remaining (n := prompts.length) (by decide)),
    he,
    List.getElem?_eq_getElem (pyMod_lt data.days_passed (n := extra_tags.length) (by decide))]
  simp only [Option.bind_eq_bind, Option.some_bind]
  exact ⟨_, (apply_ite some _ _ _).symm⟩

/-- C2: whatever text `create_tweet_text` produces (the aside already
dropped there when the with-aside rendering exceeded 280), the length
enforcement of `post_daily_update` hands the publisher at most 280
characters, and an over-length text is truncated to 280 − 3 characters with
the `"..."` ellipsis marker appended. -/
theorem tweet_length_budget (data : ProgressData) (remote_joke remote_quote : Option String)
    (t : String) (_h : create_tweet_text data remote_joke remote_quote = some t) :
    (enforce_tweet_length t).length ≤ 280 ∧
    (280 < t.length → enforce_tweet_length t = String.take t 277 ++ "...") := by
  constructor
  · unfold enforce_tweet_length
    split_ifs with hl
    · rw [String.length_append]
      have h1 : (String.take t 277).length ≤ 277 := by
        rw [String.take_eq, String.length_mk]
        simp [List.length_take]
      have h2 : ("..." : String).length = 3 := rfl
      omega
    · omega
  · intro hl
    unfold enforce_tweet_length
    rw [if_pos hl]

theorem tweet_length_budget_witness :
    (create_tweet_text (calculate_year_progress ⟨2025, 10, 12⟩ false) none none).elim False
      (fun t => (enforce_tweet_length t).length ≤ 280 ∧
        (280 < t.length → enforce_tweet_length t = String.take t 277 ++ "...")) := by
  obtain ⟨t, ht⟩ :=
    create_tweet_text_total (calculate_year_progress ⟨2025, 10, 12⟩ false) none none
  rw [ht]
  exact tweet_length_budget (calculate_year_progress ⟨2025, 10, 12⟩ false) none none t ht

/-- C4: aside selection is a deterministic function of `daysPassed`: a joke
exactly when `daysPassed > 0` and `daysPassed % 7 == 0`, otherwise a quote
exactly when `daysPassed % 3 == 0`, otherwise no aside; never both, with the
joke taking priority (`daysPassed = 7` and `21` select the joke,
`daysPassed = 3` selects the quote). -/
theorem aside_selection_rule (days_passed : Int) (remote_joke remote_quote : Option String) :
    (show_joke days_passed = true ↔ 0 < days_passed ∧ days_passed % 7 = 0) ∧
    (show_quote days_passed = true ↔
      ¬(0 < days_passed ∧ days_passed % 7 = 0) ∧ days_passed % 3 = 0) ∧
    ¬(show_joke days_passed = true ∧ show_quote days_passed = true) ∧
    (show_joke days_passed = false → show_quote days_passed = false →
      select_aside days_passed remote_joke remote_quote = some none) ∧
    show_joke 7 = true ∧ show_quote 7 = false ∧ show_joke 3 = false ∧ show_quote 3 = true ∧
    show_joke 21 = true ∧ show_quote 21 = false := by
  refine ⟨?_, ?_, ?_, ?_, by decide, by decide, by decide, by decide, by decide, by decide⟩
  · simp [show_joke]
  · simp [show_quote, show_joke]
    omega
  · rintro ⟨h1, h2⟩
    simp [show_quote, h1] at h2
  · intro h1 h2
    simp [select_aside, h1, h2]

theorem aside_selection_rule_witness :
    show_joke 5 = false ∧ show_quote 5 = false ∧ select_aside 5 none none = some none :=
  ⟨by decide, by decide, (aside_selection_rule 5 none none).2.2.2.1 (by decide) (by decide)⟩

/-- C9: for every record produced by the calculator from a valid date, every
candidate-pool index used by `create_tweet_text` is in bounds (the weekday
index lies in the 7-element hook pool, every modulo index lies within its
pool's length) and composition cannot raise (it always returns a text). -/
theorem composition_indexing_safe (today : Date) (_h : today.Valid) (include_today : Bool)
    (remote_joke remote_quote : Option String) :
    today.weekday < hooks.length ∧ hooks.length = 7 ∧
    pyMod (calculate_year_progress today include_today).days_passed insights.length <
      insights.length ∧
    pyMod (calculate_year_progress today include_today).days_remaining prompts.length <
      prompts.length ∧
    pyMod (calculate_year_progress today include_today).days_passed jokes.length <
      jokes.length ∧
    pyMod (calculate_year_progress today include_today).days_passed fallback_quotes.length <
      fallback_quotes.length ∧
    pyMod (calculate_year_progress today include_today).days_passed extra_tags.length <
      extra_tags.length ∧
    (create_tweet_text (calculate_year_progress today include_today)
        remote_joke remote_quote).isSome = true := by
  refine ⟨weekday_lt_seven today, by decide, pyMod_lt _ (by decide), pyMod_lt _ (by decide),
    pyMod_lt _ (by decide), pyMod_lt _ (by decide), pyMod_lt _ (by decide), ?_⟩
  obtain ⟨t, ht⟩ := create_tweet_text_total (calculate_year_progress today include_today)
    remote_joke remote_quote
  rw [ht]
  rfl

theorem composition_indexing_safe_witness :
    (Date.Valid ⟨2025, 10, 12⟩) ∧
    ((Date.mk 2025 10 12).weekday < hooks.length ∧ hooks.length = 7 ∧
    pyMod (calculate_year_progress ⟨2025, 10, 12⟩ false).days_passed insights.length <
      insights.length ∧
    pyMod (calculate_year_progress ⟨2025, 10, 12⟩ false).days_remaining prompts.length <
      prompts.length ∧
    pyMod (calculate_year_progress ⟨2025, 10, 12⟩ false).days_passed jokes.length <
      jokes.length ∧
    pyMod (calculate_year_progress ⟨2025, 10, 12⟩ false).days_passed fallback_quotes.length <
      fallback_quotes.length ∧
    pyMod (calculate_year_progress ⟨2025, 10, 12⟩ false).days_passed extra_tags.length <
      extra_tags.length ∧
    (create_tweet_text (calculate_year_progress ⟨2025, 10, 12⟩ false) none none).isSome = true) :=
  ⟨by decide, composition_indexing_safe ⟨2025, 10, 12⟩ (by decide) false none none⟩


theorem dict_get_obj {j : Json} {k : String} {v : Option Json}
    (h : dict_get j k = .ok v) : ∃ fields, j = Json.obj fields := by
  cases j <;> simp [dict_get] at h
  exact ⟨_, rfl⟩

/-- C3 (amended): for every record whose selection rule calls for an aside,
each remote failure the code guards against — fetch failure (network error,
timeout, non-200 status, undecodable JSON), the remote-content opt-out, a
falsy payload, a joke payload with a truthy error flag or a missing or falsy
joke field, a non-list quote payload or one with a falsy first element or a
falsy q field, and over-length string content — makes the remote helper
return `None`; the aside is then taken from the local fallback pool at index
`daysPassed mod fallbackPoolSize`, it is never missing, and composition
returns a tweet without raising.  (A decodable payload of the wrong shape
instead raises; see the counterexample.) -/
theorem aside_fallback_on_handled_remote_failure
    (data : ProgressData) (use_remote_content : Bool)
    (joke_response quote_response : Option Json)
    (joke_max_length quote_max_length : Nat) :
    (get_remote_joke use_remote_content none joke_max_length = .ok none) ∧
    (get_remote_joke false joke_response joke_max_length = .ok none) ∧
    (∀ payload : Json, payload.truthy = false →
      get_remote_joke use_remote_content (some payload) joke_max_length = .ok none) ∧
    (∀ payload err, payload.truthy = true → dict_get payload "error" = .ok (some err) →
      err.truthy = true →
      get_remote_joke use_remote_content (some payload) joke_max_length = .ok none) ∧
    (∀ payload jv, payload.truthy = true → dict_get payload "error" = .ok none →
      dict_get payload "joke" = .ok jv → truthyOpt jv = false →
      get_remote_joke use_remote_content (some payload) joke_max_length = .ok none) ∧
    (∀ s : String, joke_max_length < s.length →
      get_remote_joke use_remote_content (some (Json.obj [("joke", Json.str s)]))
        joke_max_length = .ok none) ∧
    (get_remote_quote use_remote_content none quote_max_length = .ok none) ∧
    (get_remote_quote false quote_response quote_max_length = .ok none) ∧
    (∀ payload : Json, payload.truthy = false →
      get_remote_quote use_remote_content (some payload) quote_max_length = .ok none) ∧
    (∀ payload : Json, payload.truthy = true → (∀ xs, payload ≠ Json.arr xs) →
      get_remote_quote use_remote_content (some payload) quote_max_length = .ok none) ∧
    (∀ item rest, Json.truthy item = false →
      get_remote_quote use_remote_content (some (Json.arr (item :: rest)))
        quote_max_length = .ok none) ∧
    (∀ item rest cv, Json.truthy item = true → dict_get item "q" = .ok cv →
      truthyOpt cv = false →
      get_remote_quote use_remote_content (some (Json.arr (item :: rest)))
        quote_max_length = .ok none) ∧
    (∀ s : String, quote_max_length < s.length + 2 →
      get_remote_quote use_remote_content
        (some (Json.arr [Json.obj [("q", Json.str s)]])) quote_max_length = .ok none) ∧
    (show_joke data.days_passed = true →
      select_aside data.days_passed none none =
        some (some (jokes.getD (pyMod data.days_passed jokes.length) ""))) ∧
    (show_quote data.days_passed = true →
      select_aside data.days_passed none none =
        some (some (fallback_quotes.getD (pyMod data.days_passed fallback_quotes.length) ""))) ∧
    ((show_joke data.days_passed = true ∨ show_quote data.days_passed = true) →
      ∀ e, select_aside data.days_passed none none = some e → e.isSome = true) ∧
    (get_remote_joke use_remote_content joke_response joke_max_length = .ok none →
      get_remote_quote use_remote_content quote_response quote_max_length = .ok none →
      ∃ t, create_tweet_text_full data use_remote_content joke_response quote_response
        joke_max_length quote_max_length = .ok t) := by
  have hjoke : show_joke data.days_passed = true →
      select_aside data.days_passed none none =
        some (some (jokes.getD (pyMod data.days_passed jokes.length) "")) := by
    intro hj
    have hb : pyMod data.days_passed jokes.length < jokes.length :=
      pyMod_lt _ (by decide)
    unfold select_aside
    rw [if_pos hj, List.getElem?_eq_getElem hb, List.getD_eq_getElem _ _ hb]
    rfl
  have hquote : show_quote data.days_passed = true →
      select_aside data.days_passed none none =
        some (some (fallback_quotes.getD (pyMod data.days_passed fallback_quotes.length) "")) := by
    intro hq
    have hjf : show_joke data.days_passed = false := by
      unfold show_quote at hq
      rcases h : show_joke data.days_passed
      · rfl
      · rw [h] at hq; simp at hq
    have hb : pyMod data.days_passed fallback_quotes.length < fallback_quotes.length :=
      pyMod_lt _ (by decide)
    unfold select_aside
    rw [if_neg (by simp [hjf]), if_pos hq, List.getElem?_eq_getElem hb,
      List.getD_eq_getElem _ _ hb]
    rfl
  refine ⟨?_, ?_, ?_, ?_, ?_, ?_, ?_, ?_, ?_, ?_, ?_, ?_, ?_, hjoke, hquote, ?_, ?_⟩
  · cases use_remote_content <;> rfl
  · rcases joke_response with _ | j <;> rfl
  · intro payload hp
    cases use_remote_content
    · rfl
    · simp [get_remote_joke, fetch_json, hp]
  · intro payload err hp herr htruthy
    cases use_remote_content
    · rfl
    · simp [get_remote_joke, fetch_json, hp, herr, truthyOpt, htruthy]
  · intro payload jv hp herr hjv htv
    cases use_remote_content
    · rfl
    · rcases jv with _ | j
      · simp [get_remote_joke, fetch_json, hp, herr, hjv, truthyOpt]
      · simp only [truthyOpt] at htv
        simp [get_remote_joke, fetch_json, hp, herr, hjv, truthyOpt, htv]
  · intro s hlen
    cases use_remote_content
    · rfl
    · by_cases he : s.isEmpty <;>
        simp [get_remote_joke, fetch_json, dict_get, Json.truthy, truthyOpt, Json.pyLen,
          he, hlen]
  · cases use_remote_content <;> rfl
  · rcases quote_response with _ | q <;> rfl
  · intro payload hp
    cases use_remote_content
    · rfl
    · simp [get_remote_quote, fetch_json, hp]
  · intro payload hp hne
    cases use_remote_content
    · rfl
    · cases payload
      case arr xs => exact absurd rfl (hne xs)
      all_goals simp [get_remote_quote, fetch_json, hp]
  · intro item rest hit
    cases use_remote_content
    · rfl
    · have harr : (Json.arr (item :: rest)).truthy = true := by simp [Json.truthy]
      simp [get_remote_quote, fetch_json, harr, hit]
  · intro item rest cv hit hq hcv
    cases use_remote_content
    · rfl
    · obtain ⟨fields, rfl⟩ := dict_get_obj hq
      simp only [dict_get, Except.ok.injEq] at hq
      subst hq
      simp only [Json.truthy] at hit
      simp [get_remote_quote, fetch_json, Json.truthy, dict_get, hcv, hit]
  · intro s hlen
    cases use_remote_content
    · rfl
    · have hq1 : ("\"" : String).length = 1 := rfl
      by_cases he : s.isEmpty
      · simp [get_remote_quote, fetch_json, dict_get, Json.truthy, truthyOpt, Json.pyStr,
          he, String.length_append, hq1]
      · simp [get_remote_quote, fetch_json, dict_get, Json.truthy, truthyOpt, Json.pyStr,
          he, String.length_append, hq1]
        omega
  · intro hcall e he
    rcases hcall with hj | hq
    · unfold select_aside at he
      rw [if_pos hj,
        List.getElem?_eq_getElem (pyMod_lt data.days_passed (n := jokes.length) (by decide))]
        at he
      simp only [Option.map_some'] at he
      cases he
      rfl
    · have hjf : show_joke data.days_passed = false := by
        unfold show_quote at hq
        rcases h : show_joke data.days_passed
        · rfl
        · rw [h] at hq; simp at hq
      unfold select_aside at he
      rw [if_neg (by simp [hjf]), if_pos hq,
        List.getElem?_eq_getElem
          (pyMod_lt data.days_passed (n := fallback_quotes.length) (by decide))] at he
      simp only [Option.map_some'] at he
      cases he
      rfl
  · intro hj hq
    obtain ⟨t, ht⟩ := create_tweet_text_total data none none
    unfold create_tweet_text_full
    dsimp only
    by_cases h1 : show_joke data.days_passed = true
    · refine ⟨t, ?_⟩
      rw [if_pos h1, hj]
      simp [ht]
    · rw [if_neg h1]
      by_cases h2 : show_quote data.days_passed = true
      · refine ⟨t, ?_⟩
        rw [if_pos h2, hq]
        simp [ht]
      · refine ⟨t, ?_⟩
        rw [if_neg h2]
        simp [ht]

theorem aside_fallback_on_handled_remote_failure_witness :
    show_joke (7 : Int) = true ∧
    select_aside (7 : Int) none none =
      some (some (jokes.getD (pyMod 7 jokes.length) "")) :=
  ⟨by decide,
    (aside_fallback_on_handled_remote_failure
      ⟨2025, ⟨2025, 1, 7⟩, true, 7, 358, 365, 19, 51, 2⟩ true none none 120
      120).2.2.2.2.2.2.2.2.2.2.2.2.2.1 (by decide)⟩

/-- C3 counterexample: the claim as stated is false of the code — a payload
that decodes but has the wrong shape is a malformed remote payload on which
the helpers raise `AttributeError` or `TypeError` instead of falling back
(`data.get` on a JSON string, `len` on a non-string joke value, `item.get`
on a truthy non-dict list element), and on a joke day (daysPassed = 7) the
exception propagates through composition to the caller with no fallback
aside. -/
theorem aside_malformed_payload_raises :
    get_remote_joke true (some (Json.str "hello")) 120 = .error PyError.attributeError ∧
    get_remote_joke true (some (Json.obj [("joke", Json.num 5)])) 120 =
      .error PyError.typeError ∧
    get_remote_quote true (some (Json.arr [Json.str "hello"])) 120 =
      .error PyError.attributeError ∧
    show_joke (calculate_year_progress ⟨2025, 1, 7⟩ true).days_passed = true ∧
    create_tweet_text_full (calculate_year_progress ⟨2025, 1, 7⟩ true) true
      (some (Json.str "hello")) none 120 120 = .error PyError.attributeError :=
  ⟨rfl, rfl, rfl, by decide, rfl⟩
